import Mathlib

/-!
Verification development for the routing / iterative-lookup core of a
Kademlia-style DHT (source files: src/lib/bucket.js, src/lib/routing-table.js,
src/lib/router.js).  The JavaScript is embedded shallowly: callback-style
functions become Lean functions returning Except, mutation becomes explicit
state passing, and thrown JavaScript exceptions (TypeError, AssertionError)
become values of JsCrash.  Files constants.js, utils.js, contact.js, item.js
and message.js are required by the source but are not part of the provided
sources; they are modelled from the specification where noted.
-/

namespace Kad

/-- Modelled from the spec: constants.js is not among the provided sources.
B is the identifier bit width (spec glossary: "e.g., 160"). -/
def B : Nat := 160

/-- Modelled from the spec: constants.js is not among the provided sources.
K is the maximum number of contacts per bucket (Kademlia replication
parameter, 20 in the reference implementations). -/
def K : Nat := 20

/-- Modelled from the spec: constants.js is not among the provided sources.
ALPHA is the lookup concurrency parameter (spec glossary: "typically 3"). -/
def ALPHA : Nat := 3

/-- Modelled from the spec: utils.js is not among the provided sources.
Identifiers are B-bit unsigned integers; distance(a,b) is bitwise XOR
(spec section 4.1). -/
def getDistance (a b : Nat) : Nat := Nat.xor a b

/-- Modelled from the spec: utils.js is not among the provided sources.
compare(d1,d2) is the unsigned compare of identifiers (spec section 4.1);
the source returns -1/0/1, rendered here as Ordering. -/
def compareKeys (a b : Nat) : Ordering := compare a b

/-- Fuel-driven floor of the base-2 logarithm (fuel n is always enough for
input n); structural recursion keeps it kernel-computable. -/
def log2fuel : Nat → Nat → Nat
  | 0, _ => 0
  | fuel + 1, n => if n < 2 then 0 else log2fuel fuel (n / 2) + 1

/-- Floor of the base-2 logarithm, 0 at 0 and 1. -/
def log2floor (n : Nat) : Nat := log2fuel n n

/-- Modelled from the spec: utils.js is not among the provided sources.
bucket_index(self, other) is B - 1 - floor(log2(distance(self, other)))
(spec section 4.1); undefined when the ids are equal. -/
def getBucketIndex (selfId otherId : Nat) : Nat :=
  B - 1 - log2floor (getDistance selfId otherId)

/-- Modelled from the spec: utils.js is not among the provided sources.
create_id hashes a key to a B-bit identifier (spec section 2).  The hash
itself is opaque to every claim; keys are already numeric here and are
reduced into the identifier space. -/
def createID (key : Nat) : Nat := key % 2 ^ B

/-- Modelled from the spec: contact.js is not among the provided sources.
A Contact is a peer descriptor { node_id, last_seen } (spec section 3); the
transport-opaque address plays no role in any claim and is omitted. -/
structure Contact where
  nodeID : Nat
  lastSeen : Nat
deriving DecidableEq, Repr

/-- Modelled from the spec: contact.seen() stamps last_seen with the current
time (spec section 4.4 step 1); time is passed explicitly. -/
def Contact.seen (c : Contact) (now : Nat) : Contact :=
  { c with lastSeen := now }

/-- A thrown JavaScript exception: these crash the enclosing operation
(they are not callback errors). -/
inductive JsCrash where
  | typeError (msg : String) : JsCrash
  | assertionError (msg : String) : JsCrash
deriving DecidableEq, Repr

/-- Bucket state (bucket.js:14-23): index, the ordered list of nodeIDs
(field contacts), and the nodeID-to-Contact cache (field _cache, an
association list here). -/
structure Bucket where
  index : Nat
  contacts : List Nat
  cache : List (Nat × Contact)
deriving DecidableEq, Repr

/-- JavaScript property write cache[id] = c: replace the entry when the key
is present, otherwise add it. -/
def cacheInsert (l : List (Nat × Contact)) (id : Nat) (c : Contact) :
    List (Nat × Contact) :=
  if l.any (fun p => p.1 = id) then
    l.map (fun p => if p.1 = id then (id, c) else p)
  else l ++ [(id, c)]

/-- JavaScript property read cache[id]. -/
def cacheGet (l : List (Nat × Contact)) (id : Nat) : Option Contact :=
  (l.find? (fun p => p.1 = id)).map (fun p => p.2)

/-- Number of contacts in the bucket (bucket.js:29-31,
getSize = contacts.length). -/
def Bucket.getSize (b : Bucket) : Nat := b.contacts.length

/-- Membership test on the order (bucket.js:102-104). -/
def Bucket.hasContact (b : Bucket) (nodeID : Nat) : Bool :=
  b.contacts.contains nodeID

/-- Snapshot of the cached contacts (bucket.js:37-39,
clone of the cache values). -/
def Bucket.getContactList (b : Bucket) : List Contact :=
  b.cache.map (fun p => p.2)

/-- Lodash sortedIndex(array, value, iteratee) used at bucket.js:70-72:
on a lastSeen-sorted order it is the lowest index at which the value can be
inserted keeping the order sorted, i.e. the length of the prefix of entries
whose iteratee value is strictly below that of the inserted value. -/
def sortedIndexByLastSeen (cache : List (Nat × Contact)) (order : List Nat)
    (nodeID : Nat) : Nat :=
  let seen : Nat → Nat := fun id => ((cacheGet cache id).map Contact.lastSeen).getD 0
  (order.takeWhile (fun id => seen id < seen nodeID)).length

/-- Insertion at a list index (JavaScript splice(idx, 0, x)). -/
def insertAt (l : List Nat) (idx : Nat) (x : Nat) : List Nat :=
  l.take idx ++ [x] ++ l.drop idx

/-- Bucket.addContact (bucket.js:61-78).  The size check against K comes
first (line 65: callback(Error "Bucket full")); only then is the cache entry
overwritten (line 68), so a full bucket is left entirely unchanged while a
duplicate on a non-full bucket still gets its cache entry replaced before
the error at line 76.  The mutated bucket is returned alongside the callback
outcome because the JavaScript object is mutated even on the duplicate
error. -/
def Bucket.addContact (b : Bucket) (c : Contact) :
    Bucket × Except String Contact :=
  if b.getSize = K then
    (b, .error "Bucket full")
  else
    let b1 : Bucket := { b with cache := cacheInsert b.cache c.nodeID c }
    if b1.contacts.contains c.nodeID then
      (b1, .error "Contact already in bucket")
    else
      let idx := sortedIndexByLastSeen b1.cache b1.contacts c.nodeID
      ({ b1 with contacts := insertAt b1.contacts idx c.nodeID }, .ok c)

/-- Bucket.removeContact (bucket.js:85-95): splice the nodeID out when
present, error when absent.  The source invokes its callback a second time
with an error after a successful removal (bucket.js:92-94, a missing
return); the spec (section 9) flags this as a bug and fixes the contract to
the intended single call, which is what is modelled: success with the
contact when present. -/
def Bucket.removeContact (b : Bucket) (c : Contact) :
    Bucket × Except String Contact :=
  if b.contacts.contains c.nodeID then
    ({ b with contacts := b.contacts.erase c.nodeID }, .ok c)
  else
    (b, .error "Contact not in bucket")

/-- Keys of the storage adapter records (spec section 3): the ROUTING-TABLE
snapshot, per-bucket records BUCKET-i, the BUCKETS index list, and one
record per contact nodeID. -/
inductive StoreKey where
  | routingTableKey : StoreKey
  | bucketKey (i : Nat) : StoreKey
  | bucketsKey : StoreKey
  | contactKey (id : Nat) : StoreKey
deriving DecidableEq, Repr

/-- Values held by the storage adapter.  The adapter stores opaque strings
(JSON); serialization of these shapes is injective and JSON round-trips
them, so the payloads are kept structured. -/
inductive StoreVal where
  | snapshot (entries : List (Nat × List Nat)) : StoreVal
  | idList (ids : List Nat) : StoreVal
  | contactRec (c : Contact) : StoreVal
deriving DecidableEq, Repr

/-- The storage adapter as an association list (MemStore semantics: total
get/put with last write winning). -/
abbrev Store := List (StoreKey × StoreVal)

def storagePut (s : Store) (k : StoreKey) (v : StoreVal) : Store :=
  (k, v) :: (List.filter (fun p => p.1 ≠ k) s)

def storageGet (s : Store) (k : StoreKey) : Option StoreVal :=
  (List.find? (fun p => p.1 = k) s).map (fun p => p.2)

/-- RoutingTable state (routing-table.js:8-16): the in-memory sparse bucket
map (field _buckets, an association list here) and the storage adapter. -/
structure RTState where
  buckets : List (Nat × Bucket)
  storage : Store
deriving DecidableEq, Repr

/-- Read of the in-memory bucket map at an index. -/
def RTState.bucket (t : RTState) (i : Nat) : Option Bucket :=
  (t.buckets.find? (fun p => p.1 = i)).map (fun p => p.2)

/-- RoutingTable.setContact (routing-table.js:115-117): upsert the serialized
contact record under its nodeID. -/
def RTState.setContact (t : RTState) (c : Contact) : RTState :=
  { t with storage := storagePut t.storage (.contactKey c.nodeID) (.contactRec c) }

/-- RoutingTable.getContact (routing-table.js:99-113): deserialize the
contact record, error when absent. -/
def RTState.getContact (t : RTState) (nodeID : Nat) : Except String Contact :=
  match storageGet t.storage (.contactKey nodeID) with
  | some (.contactRec c) => .ok c
  | _ => .error "not found"

/-- RoutingTable.save (routing-table.js:37-43): persist the bucket-index to
nodeID-list snapshot under ROUTING-TABLE through the real adapter. -/
def RTState.save (t : RTState) : Store :=
  storagePut t.storage .routingTableKey
    (.snapshot (t.buckets.map (fun p => (p.1, p.2.contacts))))

/-- The reconstruction loop of RoutingTable, load (routing-table.js:27-29).
For each parsed entry it evaluates new Bucket(index, self), passing the
RoutingTable itself as the storage adapter; Bucket._setStorageAdapter
(bucket.js:189) asserts typeof storage.get to be a function and RoutingTable
has no get method, so the first entry throws an AssertionError.  (Two
further slips on the same line: lodash forEach over a parsed object passes
string keys, failing the index assertion of bucket.js:18, and self._buckets
is still undefined at the assignment.  Note also that even the non-throwing
path would discard the parsed contact lists: they are never assigned.) -/
def rebuildBuckets : List (Nat × List Nat) → Except JsCrash (List (Nat × Bucket))
  | [] => .ok []
  | _ :: _ => .error (.assertionError "Store has no get method")

/-- RoutingTable._load (routing-table.js:18-35) over a fresh instance:
read ROUTING-TABLE, JSON.parse it and rebuild the bucket map inside a
try/catch whose handler resets _buckets to the empty object.  A missing or
non-snapshot record makes JSON.parse throw (caught); a parsed non-empty
snapshot throws inside the forEach (rebuildBuckets above, caught); an empty
snapshot leaves _buckets undefined, read as an empty map by every
accessor. -/
def loadFrom (s : Store) : List (Nat × Bucket) :=
  match storageGet s .routingTableKey with
  | some (.snapshot entries) =>
    match rebuildBuckets entries with
    | .ok m => m
    | .error _ => []
  | _ => []

/-- JavaScript property read bucket.length used by hasBucket
(routing-table.js:91): Bucket instances define only index, contacts, _cache
and _storage (bucket.js:19-22), so length is undefined and the read yields
no number. -/
def Bucket.lengthProp (_b : Bucket) : Option Nat := none

/-- RoutingTable.hasBucket (routing-table.js:88-97): error when the index is
absent from _buckets or when bucket.length === 0.  Since length is not a
Bucket property the strict comparison undefined === 0 is always false, so
the emptiness arm can never fire. -/
def RTState.hasBucket (t : RTState) (i : Nat) : Except String Unit :=
  match t.bucket i with
  | none => .error "Bucket does not exist yet"
  | some b => if b.lengthProp = some 0 then .error "Bucket does not exist yet" else .ok ()

/-- RoutingTable.getBucket (routing-table.js:71-86): return the bucket at
the index, creating one when absent.  Creation evaluates
new Bucket(index, self) with the RoutingTable itself as the storage
adapter, and Bucket._setStorageAdapter (bucket.js:189) asserts
storage.get to be a function, which RoutingTable does not have: the
creation path always throws. -/
def RTState.getBucket (t : RTState) (i : Nat) : Except JsCrash Bucket :=
  match t.bucket i with
  | some b => .ok b
  | none => .error (.assertionError "Store has no get method")

/-- Bucket.loadContacts (bucket.js:166-180) as wired by this repository:
the _storage of the bucket is the RoutingTable that created it
(routing-table.js:28,77), which has no get method, so reading any nodeID
throws a TypeError.  An empty order never touches storage (async.each over
an empty collection) and completes; the completion callback carries no
value. -/
def Bucket.loadContactsViaTable (b : Bucket) : Except JsCrash Unit :=
  if b.contacts.isEmpty then .ok ()
  else .error (.typeError "this._storage.get is not a function")

/-- Bucket.save (bucket.js:116-141) as wired by this repository: it starts
with this._storage.put, and the _storage of the bucket is the RoutingTable
(routing-table.js:28,77), which has no put method: it always throws. -/
def Bucket.saveViaTable (_b : Bucket) : Except JsCrash Unit :=
  .error (.typeError "this._storage.put is not a function")

/-- Events emitted by the Router (router.js:47-61): add, drop, shift. -/
inductive Event where
  | add (c : Contact) (bucketIndex : Nat) (position : Int) : Event
  | drop (c : Contact) : Event
  | shift (c : Contact) (bucketIndex : Nat) (position : Int) : Event
deriving DecidableEq, Repr

/-- Router.updateContact (router.js:581-608).  It stamps the contact, writes
its record through the real adapter (routing-table.js:116) and then enters
the waterfall of router.js:592-597, which cannot reach its final callback
intact: getBucket on an absent index throws while creating the bucket (see
RTState.getBucket); on a present non-empty bucket loadContacts throws (see
Bucket.loadContactsViaTable); and on a present empty bucket loadContacts
completes, but async.each hands its completion callback no value, so the
final callback of router.js:598 receives bucket = undefined and
router.js:599 throws on bucket.hasContact.  The operation therefore never
completes successfully. -/
def updateContact (t : RTState) (selfId : Nat) (c : Contact) (now : Nat) :
    Except JsCrash Unit :=
  let c1 := c.seen now
  let _t1 := t.setContact c1
  match t.getBucket (getBucketIndex selfId c1.nodeID) with
  | .error e => .error e
  | .ok b =>
    match b.loadContactsViaTable with
    | .error e => .error e
    | .ok _ => .error (.typeError "Cannot read property hasContact of undefined")

/-- Router.removeContact (router.js:128-150): resolve the bucket index,
fetch the bucket, remove the contact, save the bucket, emit drop.  With no
bucket at the index, getBucket throws while creating one; with the contact
present in an existing bucket the in-memory removal succeeds but
bucket.save throws (see Bucket.saveViaTable), so the persistence and the
drop emission of router.js:142-148 are never reached; when the contact is
not in the bucket the waterfall aborts with the callback error.  The outer
Except is a thrown exception, the inner one the callback outcome. -/
def removeContact (t : RTState) (selfId : Nat) (c : Contact) :
    Except JsCrash (Except String (RTState × List Event)) :=
  let i := getBucketIndex selfId c.nodeID
  match t.getBucket i with
  | .error e => .error e
  | .ok b =>
    match b.removeContact c with
    | (_, .error e) => .ok (.error e)
    | (b1, .ok _) =>
      match b1.saveViaTable with
      | .error e => .error e
      | .ok _ =>
        let newBuckets := t.buckets.map (fun p => if p.1 = i then (i, b1) else p)
        .ok (.ok ({ t with buckets := newBuckets }, [Event.drop c]))

/-- One visit of createBucket inside getNearestContacts (router.js:745-759).
An absent index makes hasBucket fail and the final waterfall callback
swallows the error, leaving the accumulator alone.  A present index crashes:
with a non-empty order, loadContacts throws reading through the
RoutingTable-as-storage (bucket.js:171); with an empty order loadContacts
completes but passes no value, so the next waterfall task receives the
final callback function as loadedBucket (router.js:752) and
_getNearestFromBucket calls getContactList on it (router.js:808), a
TypeError.  (hasBucket cannot skip an existing empty bucket: see
RTState.hasBucket.) -/
def createBucketStep (t : RTState) (i : Nat) (acc : List Contact) :
    Except JsCrash (List Contact) :=
  match t.bucket i with
  | none => .ok acc
  | some b =>
    if b.contacts.isEmpty then
      .error (.typeError "loadedBucket.getContactList is not a function")
    else
      .error (.typeError "this._storage.get is not a function")

/-- The ascending whilst loop of getNearestContacts (router.js:762-773):
while the pool is not full and ascBucketIndex < B - 1, increment and visit.
Fuel bounds the iteration count; B is always enough fuel. -/
def ascWhile (t : RTState) (limit : Nat) :
    Nat → Nat → List Contact → Except JsCrash (List Contact)
  | _, 0, acc => .ok acc
  | i, fuel + 1, acc =>
    if acc.length < limit ∧ i < B - 1 then
      match createBucketStep t (i + 1) acc with
      | .error e => .error e
      | .ok acc1 => ascWhile t limit (i + 1) fuel acc1
    else .ok acc

/-- The descending whilst loop of getNearestContacts (router.js:774-785):
while the pool is not full and descBucketIndex > 0, decrement and visit. -/
def descWhile (t : RTState) (limit : Nat) :
    Nat → Nat → List Contact → Except JsCrash (List Contact)
  | _, 0, acc => .ok acc
  | i, fuel + 1, acc =>
    if acc.length < limit ∧ 0 < i then
      match createBucketStep t (i - 1) acc with
      | .error e => .error e
      | .ok acc1 => descWhile t limit (i - 1) fuel acc1
    else .ok acc

/-- Router.getNearestContacts (router.js:722-793): visit the natural bucket
index of the hashed key, then ascending indexes, then descending ones,
collecting per-bucket nearest contacts.  The exclude id of router.js:737
never comes into play because a visit of any existing bucket throws before
contributing (see createBucketStep). -/
def getNearestContacts (t : RTState) (selfId key limit _excludeId : Nat) :
    Except JsCrash (List Contact) :=
  let index := getBucketIndex selfId (createID key)
  match createBucketStep t index [] with
  | .error e => .error e
  | .ok acc0 =>
    match ascWhile t limit index B acc0 with
    | .error e => .error e
    | .ok acc1 =>
      match descWhile t limit index B acc1 with
      | .error e => .error e
      | .ok acc2 => .ok acc2

/-- Modelled from the spec: item.js is not among the provided sources.  An
Item is the stored record { key, value, publisher, timestamp } as received
in a FIND_VALUE response (spec glossary). -/
structure Item where
  key : Nat
  value : Nat
  publisher : Nat
  timestamp : Nat
deriving DecidableEq, Repr

/-- Lookup type of router.js:72: one of NODE or VALUE. -/
inductive LType where
  | NODE : LType
  | VALUE : LType
deriving DecidableEq, Repr

/-- Methods of the messages the Router sends (spec section 6); message.js is
not among the provided sources and the message is modelled from the spec as
its method plus the lookup-relevant payload. -/
inductive Method where
  | findNode : Method
  | findValue : Method
  | ping : Method
  | store (it : Option Item) : Method
deriving DecidableEq, Repr

/-- An outbound RPC recorded by the embedding: target nodeID and method. -/
structure Msg where
  target : Nat
  method : Method
deriving DecidableEq, Repr

/-- Behavior of a queried peer, folding the transport outcome and the
external validator verdict together: an RPC error or timeout, or a response
carrying a node list and optionally an item with its validation result
(router.js:270-282, 327-353). -/
inductive PeerResp where
  | rpcError : PeerResp
  | reply (nodes : List Contact) (item : Option (Item × Bool)) : PeerResp
deriving DecidableEq, Repr

/-- The network environment of one lookup: the behavior of each nodeID. -/
def Env := Nat → PeerResp

/-- Lookup state machine (router.js:190-212). -/
structure LookupState where
  type : LType
  key : Nat
  hashedKey : Nat
  shortlist : List Contact
  contacted : List Nat
  previousClosest : Option Contact
  closest : Option Contact
  closestDistance : Nat
  foundValue : Bool
  value : Option Nat
  item : Option Item
  contactsWithoutValue : List Contact
deriving DecidableEq, Repr

/-- Router._createLookupState (router.js:190-212) combined with the
closest-distance initialization done by lookup (router.js:78-81). -/
def mkLookupState (ty : LType) (key : Nat) (shortlist : List Contact) :
    LookupState :=
  { type := ty
    key := key
    hashedKey := createID key
    shortlist := shortlist
    contacted := []
    previousClosest := none
    closest := shortlist.head?
    closestDistance :=
      match shortlist.head? with
      | some c => getDistance (createID key) c.nodeID
      | none => 0
    foundValue := false
    value := none
    item := none
    contactsWithoutValue := [] }

/-- Lodash uniq(list, false, nodeID) used by _addToShortList
(router.js:364): deduplicate keeping the first occurrence per nodeID. -/
def uniqByNodeID (l : List Contact) : List Contact :=
  l.foldl
    (fun acc c => if acc.any (fun x => x.nodeID = c.nodeID) then acc else acc ++ [c])
    []

/-- Router._addToShortList (router.js:361-365): concatenate then
deduplicate on nodeID. -/
def addToShortList (shortlist contacts : List Contact) : List Contact :=
  uniqByNodeID (shortlist ++ contacts)

/-- Router._removeFromShortList (router.js:373-377): reject every entry
bearing the nodeID. -/
def removeFromShortList (shortlist : List Contact) (nodeID : Nat) :
    List Contact :=
  shortlist.filter (fun c => c.nodeID ≠ nodeID)

/-- The front half of Router._handleFindResult (router.js:295-303): record
the responder in contacted and promote it to closest when strictly closer
to the hashed key.  The synchronous return value of updateContact stored in
contacted is the contact itself (router.js:297,607), a truthy value; the
routing-table side of updateContact runs on its own asynchronous
continuation (where it crashes; see updateContact) and does not alter the
lookup state. -/
def handleFindResultCore (st : LookupState) (c : Contact) : LookupState :=
  let st1 := { st with contacted := st.contacted ++ [c.nodeID] }
  let d := getDistance st1.hashedKey c.nodeID
  if compareKeys d st1.closestDistance = Ordering.lt then
    { st1 with previousClosest := st1.closest, closest := some c,
               closestDistance := d }
  else st1

/-- Router._queryContact plus _handleFindResult and _validateFindResult
(router.js:255-353) for one contact, against an environment.  Returns the
updated state, whether the query callback carried an error (only a
transport error does: the validation-failure path of router.js:331-335
calls done() with no error), the messages sent, and the contacts submitted
to removeContact (router.js:278, 333: fire-and-forget submissions). -/
def queryContact (env : Env) (st : LookupState) (c : Contact) :
    LookupState × Bool × List Msg × List Contact :=
  let msg : Msg :=
    { target := c.nodeID
      method := match st.type with | .NODE => .findNode | .VALUE => .findValue }
  match env c.nodeID with
  | .rpcError =>
    ({ st with shortlist := removeFromShortList st.shortlist c.nodeID },
     true, [msg], [c])
  | .reply nodes itemInfo =>
    let st1 := handleFindResultCore st c
    match st1.type with
    | .NODE =>
      ({ st1 with shortlist := addToShortList st1.shortlist nodes },
       false, [msg], [])
    | .VALUE =>
      match itemInfo with
      | none =>
        ({ st1 with contactsWithoutValue := st1.contactsWithoutValue ++ [c],
                    shortlist := addToShortList st1.shortlist nodes },
         false, [msg], [])
      | some (it, valid) =>
        if valid then
          ({ st1 with foundValue := true, value := some it.value, item := some it },
           false, [msg], [])
        else
          ({ st1 with shortlist := removeFromShortList st1.shortlist c.nodeID },
           false, [msg], [c])

/-- One queried contact folded into the accumulated
(state, failures, sends, removals) of a batch (router.js:225-232). -/
def runBatchStep (env : Env) (acc : LookupState × Nat × List Msg × List Contact)
    (c : Contact) : LookupState × Nat × List Msg × List Contact :=
  let q := queryContact env acc.1 c
  (q.1, acc.2.1 + (if q.2.1 then 1 else 0), acc.2.2.1 ++ q.2.2.1,
   acc.2.2.2 ++ q.2.2.2)

/-- One batch of Router._iterativeFind (router.js:225-237): query each
contact, tallying the failures counted at router.js:227-229.  Responses are
folded in batch order; the claims settled over this machine do not depend
on the interleaving of a concurrent batch. -/
def runBatch (env : Env) (st : LookupState) (batch : List Contact) :
    LookupState × Nat × List Msg × List Contact :=
  batch.foldl (runBatchStep env) (st, 0, [], [])

/-- Insertion into a sorted list by a Bool comparison on the distance
component, modelling the ascending comparator sort of router.js:440-442. -/
def insertByDist (x : Nat × Contact) : List (Nat × Contact) → List (Nat × Contact)
  | [] => [x]
  | y :: ys => if x.1 ≤ y.1 then x :: y :: ys else y :: insertByDist x ys

/-- The JavaScript Array.sort with the compareKeys comparator applied to
the distance/contact pairs of router.js:433-442: a sorted, stable
rearrangement (insertion sort here). -/
def sortByDist : List (Nat × Contact) → List (Nat × Contact)
  | [] => []
  | x :: xs => insertByDist x (sortByDist xs)

/-- Router._handleValueReturned (router.js:430-459): pair each contact
without the value with its XOR distance to the local node (router.js:435,
distance to self, not to the key), sort ascending and, when any exist, send
a single STORE carrying the latched item to the first, then resolve with
state.value.  The STORE is sent without a callback (router.js:455), so its
outcome cannot influence anything. -/
def handleValueReturned (selfId : Nat) (st : LookupState) :
    List Msg × Option Nat :=
  let distances := st.contactsWithoutValue.map
    (fun c => (getDistance c.nodeID selfId, c))
  match sortByDist distances with
  | [] => ([], st.value)
  | d :: _ => ([{ target := d.2.nodeID, method := .store st.item }], st.value)

/-- Decision taken by Router._handleQueryResults (router.js:385-422) at the
completion of a batch. -/
inductive RoundDecision where
  | nodesResult (shortlist : List Contact) : RoundDecision
  | valueResult (sends : List Msg) (value : Option Nat) : RoundDecision
  | recurse (batch : List Contact) : RoundDecision
deriving DecidableEq, Repr

/-- Router._handleQueryResults (router.js:385-422).  When a value was
latched, enter the value-returned tail.  Otherwise terminate with the
shortlist as it stands, with no truncation (router.js:402,411 both return
state.shortlist whole), when the closest node is unchanged or the shortlist
has reached K or no uncontacted contacts remain; otherwise recurse on the
next ALPHA uncontacted contacts.  The closestNode === previousClosestNode
comparison is a JavaScript reference equality; it is rendered as structural
equality of the stored contacts, which agrees with it on every state this
machine produces (a promotion always installs a strictly closer, hence
differently-identified, contact). -/
def handleQueryResults (selfId : Nat) (st : LookupState) : RoundDecision :=
  if st.foundValue then
    let (sends, v) := handleValueReturned selfId st
    .valueResult sends v
  else
    let closestUnchanged := st.closest = st.previousClosest
    let shortlistFull := K ≤ st.shortlist.length
    if closestUnchanged ∨ shortlistFull then
      .nodesResult st.shortlist
    else
      let remaining := st.shortlist.filter
        (fun c => ¬ st.contacted.contains c.nodeID)
      if remaining.isEmpty then
        .nodesResult st.shortlist
      else
        .recurse (remaining.take ALPHA)

/-- Errors with which a lookup can fail: "Not connected to any peers"
(router.js:76), "Lookup operation failed to return results"
(router.js:241), a crash escaping the machinery, or fuel exhaustion of the
embedding (the source recursion has no such bound). -/
inductive LookupErr where
  | notConnected : LookupErr
  | lookupFailed : LookupErr
  | crashed (e : JsCrash) : LookupErr
  | outOfFuel : LookupErr
deriving DecidableEq, Repr

/-- Final outcome of a lookup (router.js:93-95): the NODE shortlist or the
VALUE payload. -/
inductive FindOutcome where
  | nodes (shortlist : List Contact) : FindOutcome
  | value (v : Option Nat) : FindOutcome
deriving DecidableEq, Repr

/-- Router._iterativeFind iterated (router.js:221-246 with the recursion of
router.js:417-421): run a batch; if every query in it failed, fail with
LookupFailed; otherwise act on the round decision.  Also returns the
messages sent and the contacts submitted to removeContact. -/
def iterLoop (env : Env) (selfId : Nat) :
    Nat → LookupState → List Contact →
    (Except LookupErr FindOutcome) × List Msg × List Contact
  | 0, _, _ => (.error .outOfFuel, [], [])
  | fuel + 1, st, batch =>
    let b := runBatch env st batch
    if b.2.1 = batch.length then
      (.error .lookupFailed, b.2.2.1, b.2.2.2)
    else
      match handleQueryResults selfId b.1 with
      | .nodesResult l => (.ok (.nodes l), b.2.2.1, b.2.2.2)
      | .valueResult storeSends v =>
        (.ok (.value v), b.2.2.1 ++ storeSends, b.2.2.2)
      | .recurse next =>
        let rec2 := iterLoop env selfId fuel b.1 next
        (rec2.1, b.2.2.1 ++ rec2.2.1, b.2.2.2 ++ rec2.2.2)

/-- Router.lookup (router.js:71-88): build the initial shortlist of up to
ALPHA contacts nearest the hashed key, excluding self; fail with
"Not connected to any peers" when it yields no closest node, before any RPC
is dispatched; otherwise iterate. -/
def lookupRun (env : Env) (selfId : Nat) (t : RTState) (fuel : Nat)
    (ty : LType) (key : Nat) :
    (Except LookupErr FindOutcome) × List Msg × List Contact :=
  match getNearestContacts t selfId key ALPHA selfId with
  | .error e => (.error (.crashed e), [], [])
  | .ok shortlist =>
    let st := mkLookupState ty key shortlist
    match st.closest with
    | none => (.error .notConnected, [], [])
    | some _ => iterLoop env selfId fuel st st.shortlist

/-! Concrete states used by the theorems below. -/

/-- A routing table with no buckets over empty storage. -/
def emptyRT : RTState := { buckets := [], storage := [] }

/-- A routing table holding one bucket at index 0 whose order is [5]. -/
def exRT2 : RTState :=
  { buckets := [(0, { index := 0, contacts := [5], cache := [] })], storage := [] }

/-- A routing table holding one non-empty bucket at index 158, the natural
bucket of key 3 for a node with id 0. -/
def exRT4 : RTState :=
  { buckets := [(158, { index := 158, contacts := [9], cache := [] })], storage := [] }

/-- A routing table holding one existing bucket, at index 0, whose contact
list is empty. -/
def exRT9 : RTState :=
  { buckets := [(0, { index := 0, contacts := [], cache := [] })], storage := [] }

/-- A bucket whose order holds exactly K nodeIDs. -/
def exBucketFull : Bucket :=
  { index := 3, contacts := List.range K, cache := [] }

/-- A bucket holding the single nodeID 5. -/
def exBucketOne : Bucket :=
  { index := 3, contacts := [5], cache := [(5, { nodeID := 5, lastSeen := 0 })] }

/-- A contact whose nodeID 5 collides with entries of the example buckets. -/
def exContactFive : Contact := { nodeID := 5, lastSeen := 9 }

/-- K + 1 distinct contacts. -/
def exContacts3 : List Contact :=
  (List.range (K + 1)).map (fun n => { nodeID := n, lastSeen := 0 })

/-- A lookup state at batch completion with no value found and a shortlist
of K + 1 contacts. -/
def exState3 : LookupState := mkLookupState .NODE 1 exContacts3

/-- The single known contact of the C6 scenario. -/
def exContactA : Contact := { nodeID := 1, lastSeen := 0 }

/-- A stored item used by the VALUE-lookup scenarios. -/
def exItem : Item := { key := 2, value := 7, publisher := 3, timestamp := 4 }

/-- An environment in which every peer answers the FIND_VALUE with an item
that fails validation. -/
def exEnvInvalid : Env := fun _ => .reply [] (some (exItem, false))

/-- An environment in which every RPC fails with a transport error. -/
def exEnvError : Env := fun _ => .rpcError

/-- The initial VALUE-lookup state over the single contact exContactA. -/
def exState6 : LookupState := mkLookupState .VALUE 2 [exContactA]

/-- A VALUE-lookup state that has latched a validated item, with two
contacts without the value at distances 4 and 1 from the local node 0. -/
def exState5 : LookupState :=
  { mkLookupState .VALUE 2 [] with
      foundValue := true
      value := some 7
      item := some exItem
      contactsWithoutValue :=
        [{ nodeID := 4, lastSeen := 0 }, { nodeID := 1, lastSeen := 0 }] }

/-! Theorems. -/

/-- C1: the claim states that every successful update_contact(c) leaves
c.node_id at the tail of its bucket, except when the head of a full bucket
answered the PING, in which case the head sits at the tail and c is absent.
Against this source, updateContact never completes successfully at all: for
every routing-table state, self id, contact and timestamp it throws
(bucket creation fails the storage-adapter assertion, loadContacts reads
through the RoutingTable which has no get method, or the final waterfall
callback receives no bucket and bucket.hasContact throws); the full-bucket
PING probe of router.js:672-713 is never even reached (and itself calls the
nonexistent bucket.getContactSync at router.js:680). -/
theorem claim_C1_update_contact_never_completes :
    ∀ (t : RTState) (selfId : Nat) (c : Contact) (now : Nat),
      ∃ e, updateContact t selfId c now = Except.error e := by
  intro t selfId c now
  cases hg : t.getBucket (getBucketIndex selfId ((c.seen now).nodeID)) with
  | error e => exact ⟨e, by simp [updateContact, hg]⟩
  | ok b =>
    cases hl : b.loadContactsViaTable with
    | error e => exact ⟨e, by simp [updateContact, hg, hl]⟩
    | ok u =>
      exact ⟨.typeError "Cannot read property hasContact of undefined",
        by simp [updateContact, hg, hl]⟩

/-- C2: the claim states that save() followed by reloading the RoutingTable
from the same storage reproduces the bucket indexes and per-bucket orders.
Against this source the reload always comes back empty: _load constructs
new Bucket(index, self) with the RoutingTable as the storage adapter (the
constructor assertion throws, the catch resets _buckets to the empty map)
and never assigns the parsed contact lists.  Here a table with bucket 0
holding nodeID 5 is saved and reloaded to no buckets at all. -/
theorem claim_C2_save_reload_drops_contents :
    loadFrom (RTState.save exRT2) = [] ∧ exRT2.buckets ≠ [] :=
  ⟨rfl, by decide⟩

/-- C4: the claim describes the bucket-visit traversal of
getNearestContacts returning per-bucket distance-sorted selections.
Against this source, visiting any existing bucket throws a TypeError
(loadContacts reads through the RoutingTable-as-storage; for an empty
bucket the waterfall hands _getNearestFromBucket a callback function
instead of the bucket), so here a table whose natural bucket for the looked
up key exists and holds one contact crashes instead of returning that
contact. -/
theorem claim_C4_get_nearest_crashes_on_existing_bucket :
    exRT4.bucket (getBucketIndex 0 (createID 3)) ≠ none ∧
    getNearestContacts exRT4 0 3 3 0 =
      Except.error (JsCrash.typeError "this._storage.get is not a function") := by
  constructor
  · decide
  · rfl

/-- C9: the claim states has_bucket(i) fails for an existing bucket whose
contact list has size zero.  Against this source it succeeds: the emptiness
test of routing-table.js:91 reads bucket.length, a property Bucket does not
define, and undefined === 0 is false; here an existing bucket at index 0
with an empty contact list makes hasBucket succeed. -/
theorem claim_C9_has_bucket_succeeds_on_existing_empty_bucket :
    (∃ b, exRT9.bucket 0 = some b ∧ b.contacts = []) ∧
    RTState.hasBucket exRT9 0 = Except.ok () :=
  ⟨⟨{ index := 0, contacts := [], cache := [] }, rfl, rfl⟩, rfl⟩

/-- C10: on a bucket whose order holds exactly K nodeIDs, addContact fails
with Bucket full for every contact, duplicates included (the size check of
bucket.js:65 precedes everything), leaving order and cache unchanged; a
duplicate failure on a non-full bucket leaves the order unchanged but has
already overwritten the cache entry (bucket.js:68 precedes the membership
check of bucket.js:69). -/
theorem claim_C10_add_contact_full_precedence_duplicate_cache :
    ∀ (b : Bucket) (c : Contact),
      (b.contacts.length = K →
        Bucket.addContact b c = (b, Except.error "Bucket full")) ∧
      (b.contacts.length ≠ K → b.contacts.contains c.nodeID = true →
        Bucket.addContact b c =
          ({ b with cache := cacheInsert b.cache c.nodeID c },
           Except.error "Contact already in bucket")) := by
  intro b c
  refine ⟨fun h => ?_, fun h hc => ?_⟩
  · simp [Bucket.addContact, Bucket.getSize, h]
  · have hm : c.nodeID ∈ b.contacts := by simpa using hc
    simp [Bucket.addContact, Bucket.getSize, h, hm]

/-- Witness for C10: a bucket of exactly K contacts rejects the duplicate
contact 5 with Bucket full and stays unchanged, and a one-element non-full
bucket rejects the same duplicate while overwriting its cache entry. -/
theorem claim_C10_witness :
    (exBucketFull.contacts.length = K ∧
      exBucketFull.contacts.contains exContactFive.nodeID = true ∧
      Bucket.addContact exBucketFull exContactFive =
        (exBucketFull, Except.error "Bucket full")) ∧
    (exBucketOne.contacts.length ≠ K ∧
      exBucketOne.contacts.contains exContactFive.nodeID = true ∧
      Bucket.addContact exBucketOne exContactFive =
        ({ exBucketOne with
            cache := cacheInsert exBucketOne.cache exContactFive.nodeID exContactFive },
         Except.error "Contact already in bucket")) := by
  refine ⟨⟨by decide, by decide,
      (claim_C10_add_contact_full_precedence_duplicate_cache exBucketFull exContactFive).1
        (by decide)⟩,
    ⟨by decide, by decide,
      (claim_C10_add_contact_full_precedence_duplicate_cache exBucketOne exContactFive).2
        (by decide) (by decide)⟩⟩

/-- C3 as stated is false: at a batch completion with no value found and the
shortlist holding K + 1 contacts (so the size-K termination condition
holds), _handleQueryResults returns the shortlist whole
(router.js:396-402 passes state.shortlist to the callback untruncated),
so the result exceeds K contacts. -/
theorem claim_C3_counterexample :
    handleQueryResults 0 exState3 = RoundDecision.nodesResult exContacts3 ∧
    exState3.foundValue = false ∧
    K ≤ exState3.shortlist.length ∧
    exContacts3.length = K + 1 ∧
    ¬ exContacts3.length ≤ K := by
  refine ⟨by decide, by decide, by decide, by decide, by decide⟩

/-- C3 (amended): at batch completion with the value not found and either
closest node unchanged or a shortlist of at least K entries, the lookup
terminates successfully returning type NODE with the entire shortlist in
shortlist order, without truncation (the result may exceed K contacts). -/
theorem claim_C3_termination_returns_untruncated_shortlist :
    ∀ (selfId : Nat) (st : LookupState),
      st.foundValue = false →
      (st.closest = st.previousClosest ∨ K ≤ st.shortlist.length) →
      handleQueryResults selfId st = RoundDecision.nodesResult st.shortlist := by
  intro selfId st hf hc
  simp [handleQueryResults, hf, hc]

/-- Witness for the amended C3 at the concrete state with K + 1 contacts. -/
theorem claim_C3_witness :
    exState3.foundValue = false ∧
    (exState3.closest = exState3.previousClosest ∨ K ≤ exState3.shortlist.length) ∧
    handleQueryResults 0 exState3 = RoundDecision.nodesResult exState3.shortlist :=
  ⟨by decide, Or.inr (by decide),
    claim_C3_termination_returns_untruncated_shortlist 0 exState3 (by decide)
      (Or.inr (by decide))⟩

/-- Failure tally of a batch in which every RPC errors: each query
increments the failure counter (router.js:227-229). -/
theorem foldl_runBatchStep_failures :
    ∀ (batch : List Contact) (env : Env)
      (acc : LookupState × Nat × List Msg × List Contact),
      (∀ c ∈ batch, env c.nodeID = PeerResp.rpcError) →
      (batch.foldl (runBatchStep env) acc).2.1 = acc.2.1 + batch.length := by
  intro batch
  induction batch with
  | nil => intro env acc h; simp
  | cons c cs ih =>
    intro env acc h
    rw [List.foldl_cons]
    rw [ih env _ (fun x hx => h x (List.mem_cons_of_mem c hx))]
    have hc : env c.nodeID = PeerResp.rpcError := h c (List.mem_cons_self c cs)
    simp only [runBatchStep, queryContact, hc]
    simp [List.length_cons]
    omega

/-- C6 (amended): a batch in which every dispatched query fails with a
transport/RPC error makes the lookup fail with LookupFailed
(router.js:240-242) instead of returning a result or recursing.  A
validation failure does not count toward this tally: the rejection path of
router.js:331-335 completes its callback without an error (see
claim_C6_counterexample). -/
theorem claim_C6_transport_error_batch_fails_lookup :
    ∀ (env : Env) (selfId fuel : Nat) (st : LookupState) (batch : List Contact),
      (∀ c ∈ batch, env c.nodeID = PeerResp.rpcError) →
      (iterLoop env selfId (fuel + 1) st batch).1 =
        Except.error LookupErr.lookupFailed := by
  intro env selfId fuel st batch h
  have hf : (runBatch env st batch).2.1 = batch.length := by
    have h0 := foldl_runBatchStep_failures batch env (st, 0, [], []) h
    simpa [runBatch] using h0
  simp [iterLoop, hf]

/-- C6 as stated is false: a batch whose single query fails by validation
failure (the responder returns an item the validator rejects) does not fail
the lookup with LookupFailed; the rejection calls back without an error
(router.js:331-335), so the failure tally stays 0 and the round proceeds to
_handleQueryResults, here returning a NODE result. -/
theorem claim_C6_counterexample :
    exEnvInvalid exContactA.nodeID = PeerResp.reply [] (some (exItem, false)) ∧
    (iterLoop exEnvInvalid 0 1 exState6 [exContactA]).1 =
      Except.ok (FindOutcome.nodes []) ∧
    (iterLoop exEnvInvalid 0 1 exState6 [exContactA]).1 ≠
      Except.error LookupErr.lookupFailed := by
  have h1 : (iterLoop exEnvInvalid 0 1 exState6 [exContactA]).1 =
      Except.ok (FindOutcome.nodes []) := rfl
  exact ⟨rfl, h1, by rw [h1]; simp⟩

/-- Witness for the amended C6: the single-contact batch whose RPC errors
fails the lookup with LookupFailed. -/
theorem claim_C6_witness :
    exEnvError exContactA.nodeID = PeerResp.rpcError ∧
    (iterLoop exEnvError 0 1 exState6 [exContactA]).1 =
      Except.error LookupErr.lookupFailed :=
  ⟨rfl, claim_C6_transport_error_batch_fails_lookup exEnvError 0 0 exState6
    [exContactA] (fun _ _ => rfl)⟩

/-- Bucket lookup on a table with no buckets. -/
theorem bucket_none_of_no_buckets :
    ∀ (t : RTState) (i : Nat), t.buckets = [] → t.bucket i = none := by
  intro t i h
  simp [RTState.bucket, h]

/-- A createBucket visit on a table with no buckets skips (hasBucket fails
and the error is swallowed), leaving the pool alone. -/
theorem createBucketStep_skip :
    ∀ (t : RTState) (i : Nat) (acc : List Contact), t.buckets = [] →
      createBucketStep t i acc = Except.ok acc := by
  intro t i acc h
  simp [createBucketStep, bucket_none_of_no_buckets t i h]

/-- The ascending loop of getNearestContacts over a table with no buckets
returns the pool unchanged. -/
theorem ascWhile_skip :
    ∀ (t : RTState) (limit : Nat) (fuel i : Nat) (acc : List Contact),
      t.buckets = [] → ascWhile t limit i fuel acc = Except.ok acc := by
  intro t limit fuel
  induction fuel with
  | zero => intro i acc h; rfl
  | succ n ih =>
    intro i acc h
    by_cases hc : acc.length < limit ∧ i < B - 1
    · simp [ascWhile, hc, createBucketStep_skip t (i + 1) acc h, ih (i + 1) acc h]
    · simp [ascWhile, hc]

/-- The descending loop of getNearestContacts over a table with no buckets
returns the pool unchanged. -/
theorem descWhile_skip :
    ∀ (t : RTState) (limit : Nat) (fuel i : Nat) (acc : List Contact),
      t.buckets = [] → descWhile t limit i fuel acc = Except.ok acc := by
  intro t limit fuel
  induction fuel with
  | zero => intro i acc h; rfl
  | succ n ih =>
    intro i acc h
    by_cases hc : acc.length < limit ∧ 0 < i
    · simp [descWhile, hc, createBucketStep_skip t (i - 1) acc h, ih (i - 1) acc h]
    · simp [descWhile, hc]

/-- getNearestContacts over a table with no buckets completes with the
empty pool: every visit skips on the failed hasBucket. -/
theorem getNearestContacts_empty_table :
    ∀ (t : RTState) (selfId key limit ex : Nat), t.buckets = [] →
      getNearestContacts t selfId key limit ex = Except.ok [] := by
  intro t selfId key limit ex h
  simp [getNearestContacts, createBucketStep_skip t _ [] h,
    ascWhile_skip t limit B _ [] h, descWhile_skip t limit B _ [] h]

/-- C7: a lookup started while the routing table yields an empty initial
shortlist (here: a table with no buckets, the only way getNearestContacts
completes empty) fails with "Not connected to any peers" (router.js:75-77)
and sends no FIND_NODE or FIND_VALUE RPC: the send log is empty. -/
theorem claim_C7_empty_table_fails_not_connected_no_rpc :
    ∀ (env : Env) (selfId fuel : Nat) (t : RTState) (ty : LType) (key : Nat),
      t.buckets = [] →
      lookupRun env selfId t fuel ty key =
        (Except.error LookupErr.notConnected, [], []) := by
  intro env selfId fuel t ty key h
  simp [lookupRun, getNearestContacts_empty_table t selfId key ALPHA selfId h,
    mkLookupState]

/-- Witness for C7 at the concrete empty routing table. -/
theorem claim_C7_witness :
    emptyRT.buckets = [] ∧
    lookupRun exEnvError 0 emptyRT 5 LType.NODE 9 =
      (Except.error LookupErr.notConnected, [], []) :=
  ⟨rfl, claim_C7_empty_table_fails_not_connected_no_rpc exEnvError 0 5 emptyRT
    LType.NODE 9 rfl⟩

/-- Membership through insertByDist. -/
theorem mem_insertByDist :
    ∀ (x y : Nat × Contact) (l : List (Nat × Contact)),
      y ∈ insertByDist x l ↔ y = x ∨ y ∈ l := by
  intro x y l
  induction l with
  | nil => simp [insertByDist]
  | cons a as ih =>
    by_cases h : x.1 ≤ a.1
    · simp [insertByDist, h]
    · simp [insertByDist, h, ih]
      tauto

/-- insertByDist never yields the empty list. -/
theorem insertByDist_ne_nil :
    ∀ (x : Nat × Contact) (l : List (Nat × Contact)), insertByDist x l ≠ [] := by
  intro x l
  cases l with
  | nil => simp [insertByDist]
  | cons a as => by_cases h : x.1 ≤ a.1 <;> simp [insertByDist, h]

/-- The sort is empty exactly on the empty input. -/
theorem sortByDist_nil_iff :
    ∀ (l : List (Nat × Contact)), sortByDist l = [] ↔ l = [] := by
  intro l
  cases l with
  | nil => simp [sortByDist]
  | cons x xs =>
    constructor
    · intro h; exact absurd h (insertByDist_ne_nil x (sortByDist xs))
    · intro h; cases h

/-- The head of the ascending-distance sort belongs to the input and
minimizes the distance component. -/
theorem sortByDist_head_min :
    ∀ (l : List (Nat × Contact)) (d : Nat × Contact) (rest : List (Nat × Contact)),
      sortByDist l = d :: rest → d ∈ l ∧ ∀ y ∈ l, d.1 ≤ y.1 := by
  intro l
  induction l with
  | nil => intro d rest h; simp [sortByDist] at h
  | cons x xs ih =>
    intro d rest h
    rw [show sortByDist (x :: xs) = insertByDist x (sortByDist xs) from rfl] at h
    cases h2 : sortByDist xs with
    | nil =>
      rw [h2] at h
      have hxs : xs = [] := (sortByDist_nil_iff xs).mp h2
      subst hxs
      simp [insertByDist] at h
      obtain ⟨rfl, -⟩ := h
      exact ⟨by simp, by simp⟩
    | cons b t =>
      rw [h2] at h
      obtain ⟨hbmem, hbmin⟩ := ih b t h2
      by_cases hle : x.1 ≤ b.1
      · rw [show insertByDist x (b :: t) = x :: b :: t from by
          simp [insertByDist, hle]] at h
        injection h with h1 _
        subst h1
        refine ⟨by simp, ?_⟩
        intro y hy
        rcases List.mem_cons.mp hy with rfl | hy2
        · exact le_refl _
        · exact le_trans hle (hbmin y hy2)
      · rw [show insertByDist x (b :: t) = b :: insertByDist x t from by
          simp [insertByDist, hle]] at h
        injection h with h1 _
        subst h1
        refine ⟨List.mem_cons_of_mem x hbmem, ?_⟩
        intro y hy
        rcases List.mem_cons.mp hy with rfl | hy2
        · exact le_of_not_le hle
        · exact hbmin y hy2

/-- C5: a VALUE lookup that latched a validated item and has contacts
without the value sends exactly one STORE, addressed to the contact of
contacts_without_value with minimum XOR distance to the local node id
(router.js:433-455 sorts by distance to self, not to the key), and resolves
with type VALUE and the latched state.value irrespective of the STORE (the
STORE of router.js:455 has no callback). -/
theorem claim_C5_store_once_to_nearest_to_self :
    ∀ (selfId : Nat) (st : LookupState),
      st.foundValue = true →
      st.contactsWithoutValue ≠ [] →
      ∃ tgt : Contact,
        tgt ∈ st.contactsWithoutValue ∧
        (∀ c ∈ st.contactsWithoutValue,
          getDistance tgt.nodeID selfId ≤ getDistance c.nodeID selfId) ∧
        handleQueryResults selfId st =
          RoundDecision.valueResult
            [{ target := tgt.nodeID, method := Method.store st.item }] st.value := by
  intro selfId st hf hne
  cases hs : sortByDist (st.contactsWithoutValue.map
      (fun c => (getDistance c.nodeID selfId, c))) with
  | nil =>
    exfalso
    have hmapnil := (sortByDist_nil_iff _).mp hs
    have := List.map_eq_nil_iff.mp hmapnil
    exact hne this
  | cons d rest =>
    obtain ⟨hdmem, hdmin⟩ := sortByDist_head_min _ d rest hs
    obtain ⟨c0, hc0mem, hc0eq⟩ := List.mem_map.mp hdmem
    refine ⟨d.2, ?_, ?_, ?_⟩
    · rw [show d.2 = c0 from by rw [← hc0eq]]
      exact hc0mem
    · intro c hcmem
      have hd1 : d.1 = getDistance d.2.nodeID selfId := by
        rw [show d.2 = c0 from by rw [← hc0eq], ← hc0eq]
      rw [← hd1]
      exact hdmin _ (List.mem_map_of_mem (fun c => (getDistance c.nodeID selfId, c)) hcmem)
    · simp [handleQueryResults, hf, handleValueReturned, hs]

/-- Witness for C5: in a latched VALUE state over contacts at distances 4
and 1 from the local node 0, the single STORE goes to a minimizer and the
lookup resolves with the latched value. -/
theorem claim_C5_witness :
    exState5.foundValue = true ∧ exState5.contactsWithoutValue ≠ [] ∧
    ∃ tgt : Contact,
      tgt ∈ exState5.contactsWithoutValue ∧
      (∀ c ∈ exState5.contactsWithoutValue,
        getDistance tgt.nodeID 0 ≤ getDistance c.nodeID 0) ∧
      handleQueryResults 0 exState5 =
        RoundDecision.valueResult
          [{ target := tgt.nodeID, method := Method.store exState5.item }]
          exState5.value :=
  ⟨rfl, by decide, claim_C5_store_once_to_nearest_to_self 0 exState5 rfl (by decide)⟩

/-- handleFindResultCore does not change the lookup type. -/
theorem handleFindResultCore_type :
    ∀ (st : LookupState) (c : Contact),
      (handleFindResultCore st c).type = st.type := by
  intro st c
  simp only [handleFindResultCore]
  split <;> rfl

/-- handleFindResultCore does not change the shortlist. -/
theorem handleFindResultCore_shortlist :
    ∀ (st : LookupState) (c : Contact),
      (handleFindResultCore st c).shortlist = st.shortlist := by
  intro st c
  simp only [handleFindResultCore]
  split <;> rfl

/-- C8: the claim says a failed query (transport error or validation
failure) removes every shortlist entry with the nodeID of the contact and
submits it to remove_contact, which removes it from its bucket, persists
the bucket and emits drop.  The shortlist removal and the submission do
happen on both failure paths (router.js:277-278, 331-335), but the
remove_contact tail is impossible in this source: with no bucket at the
index of the contact, getBucket throws creating one (the RoutingTable is passed
as the storage adapter and fails the Bucket assertion); with the contact in
an existing bucket the subsequent bucket.save throws (the storage of the bucket
is the RoutingTable, which has no put); and with the contact absent the
waterfall aborts before the drop emission — a completed
remove-persist-drop outcome never occurs. -/
theorem claim_C8_eviction_submitted_but_removal_never_completes :
    ∀ (st : LookupState) (c : Contact) (t : RTState) (selfId : Nat) (it : Item),
      ((queryContact exEnvError st c).1.shortlist =
          removeFromShortList st.shortlist c.nodeID ∧
        (queryContact exEnvError st c).2.2.2 = [c]) ∧
      (st.type = LType.VALUE →
        (queryContact (fun _ => PeerResp.reply [] (some (it, false))) st c).1.shortlist =
            removeFromShortList st.shortlist c.nodeID ∧
        (queryContact (fun _ => PeerResp.reply [] (some (it, false))) st c).2.2.2 = [c]) ∧
      ∀ r, removeContact t selfId c ≠ Except.ok (Except.ok r) := by
  intro st c t selfId it
  refine ⟨⟨rfl, rfl⟩, ?_, ?_⟩
  · intro hty
    constructor
    · simp [queryContact, handleFindResultCore_type, hty, handleFindResultCore_shortlist]
    · simp [queryContact, handleFindResultCore_type, hty]
  · intro r
    simp only [removeContact]
    cases t.getBucket (getBucketIndex selfId c.nodeID) with
    | error e => simp
    | ok b =>
      cases hb : b.removeContact c with
      | mk b1 res =>
        cases res with
        | error e => simp [hb]
        | ok x => simp [hb, Bucket.saveViaTable]

/-- Witness for C8 at a VALUE lookup over the contact 1 and the bucketless
routing table. -/
theorem claim_C8_witness :
    exState6.type = LType.VALUE ∧
    (queryContact (fun _ => PeerResp.reply [] (some (exItem, false))) exState6
        exContactA).1.shortlist =
      removeFromShortList exState6.shortlist exContactA.nodeID ∧
    ∀ r, removeContact emptyRT 0 exContactA ≠ Except.ok (Except.ok r) :=
  ⟨rfl,
    ((claim_C8_eviction_submitted_but_removal_never_completes exState6 exContactA
      emptyRT 0 exItem).2.1 rfl).1,
    (claim_C8_eviction_submitted_but_removal_never_completes exState6 exContactA
      emptyRT 0 exItem).2.2⟩

end Kad
